import Mathlib

/-!
Verification development for the Scoring & Notation Aggregation Engine of the
Coaching-simulator repository.  The definitions below are a shallow embedding,
translated from `src/app/api/notation/route.ts` (referred to as "the source"
throughout).  JavaScript numbers are modelled as exact rationals (`ℚ`) plus
explicit special values (`JSVal` below) where the source can receive
non-numeric data; all arithmetic a claim inspects (clamping, `Math.round`,
weight multiplication) is exact on the rational values involved.
-/

/-- Model of a JavaScript runtime value that flows into a numeric slot such as
`MethodoEtape.score`.  `num q` is a finite number, `nan`/`posInf`/`negInf` are
the IEEE special values, and `nonNumber` stands for any value whose `typeof`
is not `"number"` (string, null, undefined, object, ...). -/
inductive JSVal where
  | nan
  | posInf
  | negInf
  | num (q : ℚ)
  | nonNumber
deriving DecidableEq

/-- Source `clamp0_100`:
`if (typeof n !== "number" || Number.isNaN(n)) return 0; return Math.max(0, Math.min(100, n));`
`Math.min(100, +inf) = 100` and `Math.max(0, -inf) = 0`, so both infinities
land inside `[0,100]` and the result is always a finite number. -/
def clamp0_100 : JSVal → ℚ
  | JSVal.nonNumber => 0
  | JSVal.nan => 0
  | JSVal.negInf => 0
  | JSVal.posInf => 100
  | JSVal.num q => max 0 (min 100 q)

/-!
Rational addition, multiplication and division are written below through
`Rat.divInt` on numerators and denominators (the toolchain `Rat.add`,
`Rat.mul`, `Rat.div` are flagged irreducible, which would make concrete
evaluation by `decide` impossible).  The `qadd_eq`/`qmul_eq`/`qdiv_eq`
bridges prove them equal to the ordinary field operations on `ℚ`, so every
statement can be read with the usual `+`, `*`, `/`.
-/

/-- Kernel-reducible rational addition; equals `a + b` (see `qadd_eq`). -/
def qadd (a b : ℚ) : ℚ :=
  Rat.divInt (a.num * (b.den : ℤ) + b.num * (a.den : ℤ)) ((a.den : ℤ) * (b.den : ℤ))

/-- Kernel-reducible rational multiplication; equals `a * b` (see `qmul_eq`). -/
def qmul (a b : ℚ) : ℚ :=
  Rat.divInt (a.num * b.num) ((a.den : ℤ) * (b.den : ℤ))

/-- Kernel-reducible rational division; equals `a / b` (see `qdiv_eq`). -/
def qdiv (a b : ℚ) : ℚ :=
  Rat.divInt (a.num * (b.den : ℤ)) ((a.den : ℤ) * b.num)

/-- JavaScript `Math.round` on a finite number: round half toward `+∞`,
i.e. `⌊x + 1/2⌋` (see `jsRound_eq_floor`). -/
def jsRound (q : ℚ) : ℤ := (qadd q (Rat.divInt 1 2)).floor

/-- Source `round2`: `Math.round(n * 100) / 100` (see `round2_eq`). -/
def round2 (n : ℚ) : ℚ := Rat.divInt (jsRound (qmul n 100)) 100

/-- Source `roundToStep`: `Math.round(n / step) * step` (see `roundToStep_eq`).
The source restricts `step` to the literals `1 | 5`; every call site relevant
here passes `5`. -/
def roundToStep (n : ℚ) (step : ℚ) : ℚ := qmul (Rat.divInt (jsRound (qdiv n step)) 1) step

/-- Source `niveauPerformance`:
`if (score <= 40) return "faible"; if (score <= 65) return "moyen";
if (score <= 85) return "bon"; return "excellent";` -/
def niveauPerformance (score : ℚ) : String :=
  if score ≤ 40 then "faible"
  else if score ≤ 65 then "moyen"
  else if score ≤ 85 then "bon"
  else "excellent"

/-- The four methodology step codes (source type `DagoCode = "D"|"A"|"G"|"O"`). -/
inductive DagoCode where
  | D
  | A
  | G
  | O
deriving DecidableEq

def DagoCode.toStr : DagoCode → String
  | DagoCode.D => "D"
  | DagoCode.A => "A"
  | DagoCode.G => "G"
  | DagoCode.O => "O"

/-- Source `SCORE_WEIGHTS` constant object (0.20 / 0.30 / 0.25 / 0.25). -/
structure ScoreWeights where
  demarrer_passer_barrage : ℚ
  accrocher : ℚ
  gerer_objections : ℚ
  obtenir_rendez_vous : ℚ

def SCORE_WEIGHTS : ScoreWeights :=
  { demarrer_passer_barrage := Rat.divInt 1 5
    accrocher := Rat.divInt 3 10
    gerer_objections := Rat.divInt 1 4
    obtenir_rendez_vous := Rat.divInt 1 4 }

/-- The weight the source selects for a code (the same four-way selection is
written out inline twice in the source: in the `detail_calcul` literals and in
the per-step injection loop). -/
def weightOf : DagoCode → ℚ
  | DagoCode.D => SCORE_WEIGHTS.demarrer_passer_barrage
  | DagoCode.A => SCORE_WEIGHTS.accrocher
  | DagoCode.G => SCORE_WEIGHTS.gerer_objections
  | DagoCode.O => SCORE_WEIGHTS.obtenir_rendez_vous

/-- Source type `MethodoEtape`.  `score` is kept at the JavaScript-value level
(`JSVal`) because the source explicitly guards against non-numeric and NaN
scores.  Fields the engine never reads nor writes (timecodes, criteria lists,
coach comment, message ids) are omitted; they pass through untouched. -/
structure MethodoEtape where
  numero : Option ℚ := none
  code : Option DagoCode := none
  titre : String
  score : JSVal
  score_max : Option ℚ := none
  poids : Option ℚ := none
  contribution_score_global : Option ℚ := none
deriving DecidableEq

/-- The principal characters matched by the JavaScript `\s` class (space, tab,
line feed, vertical tab, form feed, carriage return, no-break space). -/
def isJsSpace (c : Char) : Bool :=
  c == ' ' || c == '\t' || c == '\n' || c == '\x0B' || c == '\x0C' ||
  c == '\r' || c == ' '

/-- The regular expression test `new RegExp("^\\s*" + d + "\\s*[—-]").test titre`
used by the source to infer a step code from a numeric title: optional
leading whitespace, the digit `d`, optional whitespace, then an em-dash or a
hyphen. -/
def titleNumMatch (d : Char) (titre : String) : Bool :=
  match titre.data.dropWhile isJsSpace with
  | [] => false
  | c :: rest =>
    c == d &&
      (match rest.dropWhile isJsSpace with
       | [] => false
       | m :: _ => m == '—' || m == '-')

/-- The numeric title digit associated with each code
(`code === "D" ? 1 : code === "A" ? 2 : code === "G" ? 3 : 4`). -/
def digitFor : DagoCode → Char
  | DagoCode.D => '1'
  | DagoCode.A => '2'
  | DagoCode.G => '3'
  | DagoCode.O => '4'

/-- Source `getScoreFromEtapes`: first step whose explicit `code` field equals
the requested code wins; otherwise the first step whose title matches the
numeric pattern; otherwise `clamp0_100(undefined ?? 0) = 0`. -/
def getScoreFromEtapes (etapes : List MethodoEtape) (code : DagoCode) : ℚ :=
  match etapes.find? (fun e => e.code == some code) with
  | some byCode => clamp0_100 byCode.score
  | none =>
    match etapes.find? (fun e => titleNumMatch (digitFor code) e.titre) with
    | some e => clamp0_100 e.score
    | none => clamp0_100 (JSVal.num 0)

/-- Structured JSON values, for the parts of the aggregation payload the
source manipulates dynamically (the injected `score_global` block and the
payloads of the non-methodology tabs). -/
inductive Json where
  | nullv
  | bool (b : Bool)
  | num (q : ℚ)
  | str (s : String)
  | arr (items : List Json)
  | obj (fields : List (String × Json))

/-- JavaScript truthiness of a JSON value (used by the `if (result)` check of the source): `null`, `false`, `0` and `""` are falsy, every array
and object is truthy.  (`JSON.parse` output never contains `NaN`.) -/
def Json.truthy : Json → Bool
  | Json.nullv => false
  | Json.bool b => b
  | Json.num q => q != 0
  | Json.str s => s != ""
  | Json.arr _ => true
  | Json.obj _ => true

/-- The field names of a JSON object, in insertion order. -/
def Json.keys : Json → List String
  | Json.obj fields => fields.map Prod.fst
  | _ => []

/-- First-match field lookup in a JSON object. -/
def Json.get? : Json → String → Option Json
  | Json.obj fields, k => (fields.find? (fun p => p.fst == k)).map Prod.snd
  | _, _ => none

/-- Source type `NotationPayload.methodo`:
`{ etapes?: MethodoEtape[]; [k: string]: unknown }`.  The extra dynamic keys
are carried opaquely in `extra`; the engine never touches them. -/
structure MethodoPayload where
  etapes : Option (List MethodoEtape) := none
  extra : List (String × Json) := []

/-- Source type `NotationPayload` (the aggregation result object the POST
handler assembles): one optional entry per tab plus the injected
`score_global` block.  Key insertion order in the source is the fixed tab
order, then `score_global`. -/
structure ScoringPayload where
  score_global : Option Json := none
  synthese : Option Json := none
  methodo : Option MethodoPayload := none
  discours : Option Json := none
  transcription : Option Json := none

/-- Source expression `notation.methodo?.etapes ?? []` — the step list the aggregator reads
(the source also re-checks `Array.isArray`, which is a tautology at this
typed level). -/
def etapesOf (n : ScoringPayload) : List MethodoEtape :=
  ((n.methodo).bind MethodoPayload.etapes).getD []

/-- One entry of the `detail_calcul` array literal of the source. -/
structure DetailEntry where
  etape : String
  code : DagoCode
  score_etape : ℚ
  poids : ℚ
  contribution : ℚ

/-- The JSON object literal for one `detail_calcul` entry
(`{ etape, code, score_etape, poids, contribution }`). -/
def detailJson (d : DetailEntry) : Json :=
  Json.obj [("etape", Json.str d.etape), ("code", Json.str d.code.toStr),
    ("score_etape", Json.num d.score_etape), ("poids", Json.num d.poids),
    ("contribution", Json.num d.contribution)]

/-- JavaScript number-to-string interpolation, exact on integer values (the
only values the theorems below ever inspect); a non-integer rational is
rendered as `num/den`, which no theorem in this file relies on. -/
def jsNumString (q : ℚ) : String :=
  if q.den = 1 then toString q.num else toString q.num ++ "/" ++ toString q.den

/-- Source `buildInterpretation`: deterministic French narrative naming the
zero-scored A/O steps and the voided weight share.  The source passes the
`detail_calcul` entries projected to `{code, score_etape, poids}`; only those
three fields are read here. -/
def buildInterpretation (detail : List DetailEntry) : String :=
  let poidsManquants : ℚ :=
    (detail.filter (fun d => d.score_etape == 0)).foldl (fun acc d => qadd acc d.poids) 0
  let poidsManquantsPct : ℤ := jsRound (qmul poidsManquants 100)
  let d : ℚ := ((detail.find? (fun x => x.code == DagoCode.D)).map DetailEntry.score_etape).getD 0
  let a : ℚ := ((detail.find? (fun x => x.code == DagoCode.A)).map DetailEntry.score_etape).getD 0
  let g : ℚ := ((detail.find? (fun x => x.code == DagoCode.G)).map DetailEntry.score_etape).getD 0
  let o : ℚ := ((detail.find? (fun x => x.code == DagoCode.O)).map DetailEntry.score_etape).getD 0
  let lacunes : List String :=
    (if a == 0 then ["la phase d\u0027accroche (0%)"] else []) ++
    (if o == 0 then ["l\u0027obtention du rendez-vous (0%)"] else [])
  let lacunesTxt : String :=
    if lacunes.isEmpty then "certaines étapes clés" else String.intercalate " et " lacunes
  "L\u0027appel présente des lacunes importantes dans " ++ lacunesTxt ++
    ", qui pèsent lourdement sur le score global (" ++ toString poidsManquantsPct ++
    "% du poids total). Malgré un démarrage (" ++ jsNumString d ++
    "%) et une gestion des objections (" ++ jsNumString g ++
    "%), l\u0027absence d\u0027accroche et/ou de closing structuré limite fortement l\u0027efficacité commerciale."

/-- The code the per-step injection loop infers for a step:
`e.code ?? (title matches "^\s*1\s*[—-]" ? "D" : ... : undefined)`. -/
def inferDago (e : MethodoEtape) : Option DagoCode :=
  match e.code with
  | some c => some c
  | none =>
    if titleNumMatch '1' e.titre then some DagoCode.D
    else if titleNumMatch '2' e.titre then some DagoCode.A
    else if titleNumMatch '3' e.titre then some DagoCode.G
    else if titleNumMatch '4' e.titre then some DagoCode.O
    else none

/-- The body of the `for (const e of etapes)` loop of the source, in
`injectScoreGlobal`: steps with an inferable code get their code made
explicit, score clamped, `score_max` set to 100, and weight/contribution
injected; other steps are left untouched. -/
def injectEtape (e : MethodoEtape) : MethodoEtape :=
  match inferDago e with
  | none => e
  | some c =>
    let s : ℚ := clamp0_100 e.score
    let poids : ℚ := weightOf c
    { e with
      code := some c
      score := JSVal.num s
      score_max := some 100
      poids := some poids
      contribution_score_global := some (round2 (qmul s poids)) }

/-- The `detail_calcul` array literal in `injectScoreGlobal`,
as a function of the step list (the four resolved scores `scoreD..scoreO`
are `getScoreFromEtapes(etapes, code)`). -/
def detailCalculOf (etapes : List MethodoEtape) : List DetailEntry :=
  [{ etape := "Démarrer et passer le barrage"
     code := DagoCode.D
     score_etape := getScoreFromEtapes etapes DagoCode.D
     poids := SCORE_WEIGHTS.demarrer_passer_barrage
     contribution := round2 (qmul (getScoreFromEtapes etapes DagoCode.D) SCORE_WEIGHTS.demarrer_passer_barrage) },
   { etape := "Accrocher"
     code := DagoCode.A
     score_etape := getScoreFromEtapes etapes DagoCode.A
     poids := SCORE_WEIGHTS.accrocher
     contribution := round2 (qmul (getScoreFromEtapes etapes DagoCode.A) SCORE_WEIGHTS.accrocher) },
   { etape := "Gérer les objections"
     code := DagoCode.G
     score_etape := getScoreFromEtapes etapes DagoCode.G
     poids := SCORE_WEIGHTS.gerer_objections
     contribution := round2 (qmul (getScoreFromEtapes etapes DagoCode.G) SCORE_WEIGHTS.gerer_objections) },
   { etape := "Obtenir le rendez-vous"
     code := DagoCode.O
     score_etape := getScoreFromEtapes etapes DagoCode.O
     poids := SCORE_WEIGHTS.obtenir_rendez_vous
     contribution := round2 (qmul (getScoreFromEtapes etapes DagoCode.O) SCORE_WEIGHTS.obtenir_rendez_vous) }]

/-- Source `rawGlobal = detail_calcul.reduce((acc, d) => acc + d.contribution, 0)`. -/
def rawGlobalOf (etapes : List MethodoEtape) : ℚ :=
  (detailCalculOf etapes).foldl (fun acc d => qadd acc d.contribution) 0

/-- Source `global = roundToStep(rawGlobal, roundStep)`. -/
def globalOf (etapes : List MethodoEtape) (roundStep : ℚ) : ℚ :=
  roundToStep (rawGlobalOf etapes) roundStep

/-- The `notation.score_global = { ... }` object literal of the source, with
its exact key order and key spellings (note the accented key `pondérations`
and the weight table keyed by the long step names). -/
def scoreGlobalBlock (etapes : List MethodoEtape) (roundStep : ℚ) : Json :=
  Json.obj
    [("valeur", Json.num (globalOf etapes roundStep)),
     ("unite", Json.str "score_sur_100"),
     ("methode_calcul", Json.str "moyenne_ponderee_etapes_methodologiques"),
     ("pondérations", Json.obj
       [("demarrer_passer_barrage", Json.num SCORE_WEIGHTS.demarrer_passer_barrage),
        ("accrocher", Json.num SCORE_WEIGHTS.accrocher),
        ("gerer_objections", Json.num SCORE_WEIGHTS.gerer_objections),
        ("obtenir_rendez_vous", Json.num SCORE_WEIGHTS.obtenir_rendez_vous)]),
     ("detail_calcul", Json.arr ((detailCalculOf etapes).map detailJson)),
     ("score_process", Json.num (globalOf etapes roundStep)),
     ("score_execution_discours", Json.nullv),
     ("interpretation", Json.str (buildInterpretation (detailCalculOf etapes))),
     ("niveau_performance", Json.str (niveauPerformance (globalOf etapes roundStep))),
     ("seuils", Json.obj
       [("faible", Json.str "0-40"), ("moyen", Json.str "41-65"),
        ("bon", Json.str "66-85"), ("excellent", Json.str "86-100")]),
     ("regles_exclusion", Json.arr
       [Json.str "SyntheseGlobale", Json.str "AvisPersonaIA",
        Json.str "AnalyseDiscours", Json.str "Transcription"])]

/-- Source `injectScoreGlobal(notation, roundStep)`: if the methodology step
list is empty the payload is returned unchanged
(`if (!Array.isArray(etapes) || etapes.length === 0) return notation;`);
otherwise the steps are annotated in place by the `for (const e of etapes)`
loop and the `score_global` block is written. -/
def injectScoreGlobal (n : ScoringPayload) (roundStep : ℚ) : ScoringPayload :=
  if (etapesOf n).isEmpty then n
  else
    { n with
      methodo := n.methodo.map (fun m => { m with etapes := some ((etapesOf n).map injectEtape) })
      score_global := some (scoreGlobalBlock (etapesOf n) roundStep) }

/-- The `valeur` field of the injected composite block, when present. -/
def scoreGlobalValeur (n : ScoringPayload) : Option Json :=
  n.score_global.bind (fun j => j.get? "valeur")

/-- The key list of the injected composite block (empty when absent). -/
def scoreGlobalKeys (n : ScoringPayload) : List String :=
  (n.score_global.map Json.keys).getD []

/-- A JavaScript value thrown inside the `try` block of `callOpenAI`
(by `fetch`, a `response.json()` call, or the duck-typed shape access on the
response): either an `Error` instance carrying its `message` string, or any
non-`Error` value. -/
inductive Thrown where
  | errObj (msg : String)
  | nonErrorValue
deriving DecidableEq

/-- The environment-determined outcome of one rubric evaluation call, as
observed by `callOpenAI`.  Each constructor corresponds to one control path
of the source (`α` is the type at which the parsed payload is modelled:
`Json` for the synthese/discours/transcription tabs, `MethodoPayload` for
the methodo tab):
* `promptMissing`  — `promptsMap.get` returned `undefined` (before the `try`);
* `netThrow t`     — something inside the `try` threw `t`;
* `httpError m`    — `!response.ok`, the error body parsed, with
                     `errorData.error?.message` being `m` (`none` = absent);
* `badJson`        — a 2xx response whose extracted content failed `JSON.parse`;
* `success p`      — a 2xx response whose content parsed to payload `p`. -/
inductive EvalOutcome (α : Type) where
  | promptMissing
  | netThrow (t : Thrown)
  | httpError (errMsg : Option String)
  | badJson
  | success (payload : α)

/-- Whether the evaluation call failed (all constructors except `success`). -/
def EvalOutcome.failed : EvalOutcome α → Bool
  | EvalOutcome.success _ => false
  | _ => true

/-- The per-rubric result object
`{ tab; result: Record<string,unknown> | null; error?: string }` returned by
`callOpenAI` (`result = none` models JavaScript `null`). -/
structure TabResult (α : Type) where
  result : Option α
  error : Option String := none

/-- JavaScript `x || d` on an optional string: the fallback is used when `x`
is `undefined` or the empty string. -/
def jsOrDefault (m : Option String) (d : String) : String :=
  match m with
  | none => d
  | some s => if s == "" then d else s

/-- The `try` body of the callOpenAI function of the source (plus the prompt
lookup, which cannot throw): every `return` site becomes `Except.ok`, every
throwing path becomes `Except.error` with the thrown value.
* prompt missing  → `{ tab, result: null, error: "Prompt non trouvé pour " + tab }`;
* `!response.ok`  → `{ tab, result: null, error: errorData.error?.message || "Erreur API OpenAI" }`;
* JSON parse fail → `{ tab, result: null, error: "Format de réponse invalide" }`;
* parse success   → `{ tab, result: resultJson }`. -/
def callBody (tab : String) (o : EvalOutcome α) : Except Thrown (TabResult α) :=
  match o with
  | EvalOutcome.promptMissing =>
      Except.ok { result := none, error := some ("Prompt non trouvé pour " ++ tab) }
  | EvalOutcome.netThrow t => Except.error t
  | EvalOutcome.httpError m =>
      Except.ok { result := none, error := some (jsOrDefault m "Erreur API OpenAI") }
  | EvalOutcome.badJson =>
      Except.ok { result := none, error := some "Format de réponse invalide" }
  | EvalOutcome.success p => Except.ok { result := some p, error := none }

/-- Source `callOpenAI`: the `try` body wrapped in the `catch (error)` handler
`return { tab, result: null, error: error instanceof Error ? error.message : "Erreur inconnue" }`.
Being the total catch of `callBody`, it returns a result object on every
outcome — no exception escapes the client. -/
def callOpenAI (tab : String) (o : EvalOutcome α) : TabResult α :=
  match callBody tab o with
  | Except.ok r => r
  | Except.error (Thrown.errObj msg) => { result := none, error := some msg }
  | Except.error Thrown.nonErrorValue => { result := none, error := some "Erreur inconnue" }

/-- The environment of one full POST run: one evaluation outcome per tab, in
the fixed `NOTATION_TABS` order (`synthese`, `methodo`, `discours`,
`transcription`).  The methodo payload is modelled at the typed shape the
aggregator duck-types into. -/
structure RunOutcome where
  synthese : EvalOutcome Json
  methodo : EvalOutcome MethodoPayload
  discours : EvalOutcome Json
  transcription : EvalOutcome Json

/-- The four settled results, in tab order (the line
`await Promise.all(NOTATION_TABS.map(tab => callOpenAI(tab)))`; `Promise.all`
keeps index order whatever the completion order, so the model is a pure
function of the outcomes). -/
structure RunResults where
  synthese : TabResult Json
  methodo : TabResult MethodoPayload
  discours : TabResult Json
  transcription : TabResult Json

def runCalls (o : RunOutcome) : RunResults :=
  { synthese := callOpenAI "synthese" o.synthese
    methodo := callOpenAI "methodo" o.methodo
    discours := callOpenAI "discours" o.discours
    transcription := callOpenAI "transcription" o.transcription }

/-- The statement `if (result) notation[tab] = result` for a JSON-payload tab:
the tab is stored only when the parsed payload is truthy. -/
def keepTruthy : Option Json → Option Json
  | some j => if j.truthy then some j else none
  | none => none

/-- Truthiness of an optional JSON result (JavaScript `if (result)`). -/
def optJsonTruthy : Option Json → Bool
  | some j => j.truthy
  | none => false

/-- The `notation` object after the `results.forEach` loop (before
score injection): each truthy result stored under its tab key; a
`MethodoPayload` is an object, hence always truthy. -/
def buildPayload (rs : RunResults) : ScoringPayload :=
  { score_global := none
    synthese := keepTruthy rs.synthese.result
    methodo := rs.methodo.result
    discours := keepTruthy rs.discours.result
    transcription := keepTruthy rs.transcription.result }

/-- One iteration of the error accumulation loop:
`if (result) { ... } else if (error) errors.push(tab + ": " + error)` —
an entry is pushed only when the result is not truthy and the error string is
truthy (non-empty). -/
def errEntry (tab : String) (resTruthy : Bool) (err : Option String) : List String :=
  if resTruthy then []
  else
    match err with
    | some e => if e == "" then [] else [tab ++ ": " ++ e]
    | none => []

/-- The `errors` array after the `forEach` loop, in fixed tab order. -/
def buildErrors (rs : RunResults) : List String :=
  errEntry "synthese" (optJsonTruthy rs.synthese.result) rs.synthese.error ++
  errEntry "methodo" rs.methodo.result.isSome rs.methodo.error ++
  errEntry "discours" (optJsonTruthy rs.discours.result) rs.discours.error ++
  errEntry "transcription" (optJsonTruthy rs.transcription.result) rs.transcription.error

/-- The aggregation payload the POST run produces: the assembled `notation`
object with `injectScoreGlobal(notation, 5)` applied. -/
def runPayload (o : RunOutcome) : ScoringPayload :=
  injectScoreGlobal (buildPayload (runCalls o)) 5

/-- The `errors` list the POST run returns to the caller. -/
def runErrors (o : RunOutcome) : List String :=
  buildErrors (runCalls o)

/-- Source check `Object.keys(notation)` after injection: present tab keys in insertion
order (the fixed tab order) followed by `score_global` if it was injected
last. -/
def payloadKeys (n : ScoringPayload) : List String :=
  (if n.synthese.isSome then ["synthese"] else []) ++
  (if n.methodo.isSome then ["methodo"] else []) ++
  (if n.discours.isSome then ["discours"] else []) ++
  (if n.transcription.isSome then ["transcription"] else []) ++
  (if n.score_global.isSome then ["score_global"] else [])

/-- Whether the source writes to the result store:
`if (Object.keys(notation).length > 0) { ... update ... }`. -/
def storeWrite (o : RunOutcome) : Bool :=
  decide (0 < (payloadKeys (runPayload o)).length)

/-- Whether an error field holds a present-but-empty string. -/
def isEmptyErr : Option String → Bool
  | some s => s == ""
  | none => false

/-- How many of the four settled results carry a present-but-empty error
string (these are skipped by the `else if (error)` truthiness check). -/
def emptyErrCount (o : RunOutcome) : ℕ :=
  (if isEmptyErr (runCalls o).synthese.error then 1 else 0) +
  (if isEmptyErr (runCalls o).methodo.error then 1 else 0) +
  (if isEmptyErr (runCalls o).discours.error then 1 else 0) +
  (if isEmptyErr (runCalls o).transcription.error then 1 else 0)

/-- The composite formula the code actually implements (the amended form of
claim C1): each weighted score is rounded to 2 decimals (`round2`) before the
sum is rounded to the nearest multiple of 5.  `globalOf_eq_formula` proves
the injected value equals this. -/
def compositeFormula (etapes : List MethodoEtape) : ℚ :=
  roundToStep
    (round2 (getScoreFromEtapes etapes DagoCode.D * (1/5)) +
     round2 (getScoreFromEtapes etapes DagoCode.A * (3/10)) +
     round2 (getScoreFromEtapes etapes DagoCode.G * (1/4)) +
     round2 (getScoreFromEtapes etapes DagoCode.O * (1/4))) 5

/-- Modelled from the spec: the field names of the section-6 wire shape of
the composite block (`valeur`, `methode_calcul`, `ponderations`,
`detail_calcul`, `niveau_performance`, `seuils`), for comparison with the
key list the code actually writes. -/
def specWireKeys : List String :=
  ["valeur", "methode_calcul", "ponderations", "detail_calcul",
   "niveau_performance", "seuils"]

/-- The error fields of the four settled results, tagged with their tab name,
in the fixed tab order. -/
def tabErrors (o : RunOutcome) : List (String × Option String) :=
  [("synthese", (runCalls o).synthese.error),
   ("methodo", (runCalls o).methodo.error),
   ("discours", (runCalls o).discours.error),
   ("transcription", (runCalls o).transcription.error)]

/-- The error entries contributed by one result, as a function of its error
field alone: one `"{tab}: {error}"` entry when a non-empty error string is
present, nothing otherwise. -/
def entryIfErrored (tab : String) (err : Option String) : List String :=
  match err with
  | some e => if e == "" then [] else [tab ++ ": " ++ e]
  | none => []

/-- The running example from the spec (section 8): steps D=80, A=0, G=60,
O=0, giving contributions 16/0/15/0, raw sum 31, composite 30, level
`faible`. -/
def exEtapes : List MethodoEtape :=
  [{ code := some DagoCode.D, titre := "1 — Démarrer et passer le barrage", score := JSVal.num 80 },
   { code := some DagoCode.A, titre := "2 — Accrocher", score := JSVal.num 0 },
   { code := some DagoCode.G, titre := "3 — Gérer les objections", score := JSVal.num 60 },
   { code := some DagoCode.O, titre := "4 — Obtenir le rendez-vous", score := JSVal.num 0 }]

def exPayload : ScoringPayload :=
  { methodo := some { etapes := some exEtapes } }

/-- A methodology payload with a single D step scored 12.48 (= 312/25): the
per-contribution `round2` rounds 2.496 up to 2.5, which `roundToStep` then
rounds up to 5, while the formula of claim C1 rounds the raw 2.496 down
to 0. -/
def c1Etapes : List MethodoEtape :=
  [{ code := some DagoCode.D, titre := "Démarrer", score := JSVal.num (Rat.divInt 312 25) }]

def c1Payload : ScoringPayload :=
  { methodo := some { etapes := some c1Etapes } }

/-- A non-empty step list in which no step has a resolvable code (no `code`
field and no numeric title). -/
def c2Etapes : List MethodoEtape :=
  [{ titre := "Introduction", score := JSVal.num 50 }]

def c2Payload : ScoringPayload :=
  { methodo := some { etapes := some c2Etapes } }

/-- A run in which the synthese evaluator failed but methodology succeeded
with resolvable steps: the composite block is injected at top level while
the synthese entry stays absent. -/
def c3Outcome : RunOutcome :=
  { synthese := EvalOutcome.netThrow (Thrown.errObj "boom")
    methodo := EvalOutcome.success { etapes := some exEtapes }
    discours := EvalOutcome.success (Json.obj [("analyse", Json.str "ok")])
    transcription := EvalOutcome.success (Json.obj [("texte", Json.str "t")]) }

/-- A run in which all four evaluator calls fail, one of them by a thrown
`Error` whose `message` is the empty string. -/
def c6Outcome : RunOutcome :=
  { synthese := EvalOutcome.netThrow (Thrown.errObj "")
    methodo := EvalOutcome.promptMissing
    discours := EvalOutcome.badJson
    transcription := EvalOutcome.netThrow Thrown.nonErrorValue }

/-- A run in which all four evaluator calls fail with non-empty messages. -/
def c6AllFail : RunOutcome :=
  { synthese := EvalOutcome.netThrow (Thrown.errObj "timeout")
    methodo := EvalOutcome.httpError (some "quota")
    discours := EvalOutcome.badJson
    transcription := EvalOutcome.promptMissing }

/-- A run in which the discours evaluator succeeded but its parsed payload is
the JSON value `null` (the evaluator answered the literal text `null`), which
is falsy: the tab is then stored nowhere and no error is recorded. -/
def c7Outcome : RunOutcome :=
  { synthese := EvalOutcome.success (Json.obj [("synthese", Json.str "s")])
    methodo := EvalOutcome.success { etapes := some exEtapes }
    discours := EvalOutcome.success Json.nullv
    transcription := EvalOutcome.success (Json.obj [("texte", Json.str "t")]) }

/-- A mixed run used as a witness input: synthese succeeds, methodo fails. -/
def cMixedOutcome : RunOutcome :=
  { synthese := EvalOutcome.success (Json.obj [("synthese", Json.str "s")])
    methodo := EvalOutcome.httpError none
    discours := EvalOutcome.success (Json.obj [("analyse", Json.str "a")])
    transcription := EvalOutcome.netThrow (Thrown.errObj "reset") }

/-- A step with no explicit code whose title numeric pattern matches A. -/
def c10Pre : List MethodoEtape :=
  [{ titre := "2 — Accroche", score := JSVal.num 55 }]

/-- A step with the explicit code A and a non-matching title. -/
def c10E : MethodoEtape :=
  { code := some DagoCode.A, titre := "autre", score := JSVal.num 77 }

/-- A later duplicate step also carrying the explicit code A. -/
def c10Post : List MethodoEtape :=
  [{ code := some DagoCode.A, titre := "dup", score := JSVal.num 99 }]

/-- The error string the catch handler derives from a thrown value
(`error instanceof Error ? error.message : "Erreur inconnue"`). -/
def thrownMsg : Thrown → String
  | Thrown.errObj m => m
  | Thrown.nonErrorValue => "Erreur inconnue"

theorem qadd_eq (a b : ℚ) : qadd a b = a + b := by
  have ha : ((a.den : ℤ)) ≠ 0 := Int.natCast_ne_zero.mpr a.den_nz
  have hb : ((b.den : ℤ)) ≠ 0 := Int.natCast_ne_zero.mpr b.den_nz
  rw [qadd, ← Rat.divInt_add_divInt a.num b.num ha hb, Rat.num_divInt_den,
    Rat.num_divInt_den]

theorem qmul_eq (a b : ℚ) : qmul a b = a * b := by
  have ha : ((a.den : ℤ)) ≠ 0 := Int.natCast_ne_zero.mpr a.den_nz
  have hb : ((b.den : ℤ)) ≠ 0 := Int.natCast_ne_zero.mpr b.den_nz
  rw [qmul, ← Rat.divInt_mul_divInt a.num b.num ha hb, Rat.num_divInt_den,
    Rat.num_divInt_den]

theorem qdiv_eq (a b : ℚ) : qdiv a b = a / b := by
  by_cases hb : b = 0
  · subst hb
    show Rat.divInt (a.num * ((0 : ℚ).den : ℤ)) ((a.den : ℤ) * (0 : ℚ).num) = a / 0
    rw [show ((0 : ℚ).num) = 0 from rfl, div_zero, mul_zero, Rat.divInt_zero]
  · have ha : ((a.den : ℤ)) ≠ 0 := Int.natCast_ne_zero.mpr a.den_nz
    have hbn : b.num ≠ 0 := Rat.num_ne_zero.mpr hb
    rw [qdiv, ← Rat.divInt_mul_divInt a.num (b.den : ℤ) ha hbn, Rat.num_divInt_den,
      ← Rat.inv_def', div_eq_mul_inv]

theorem jsRound_eq_floor (q : ℚ) : jsRound q = ⌊q + 1/2⌋ := by
  rw [jsRound, qadd_eq, Rat.floor_def', ← Rat.floor_def, Rat.divInt_eq_div]
  norm_num

theorem round2_eq (n : ℚ) : round2 n = (⌊n * 100 + 1/2⌋ : ℚ) / 100 := by
  rw [round2, qmul_eq, jsRound_eq_floor, Rat.divInt_eq_div]
  norm_num

theorem roundToStep_eq (n step : ℚ) :
    roundToStep n step = (⌊n / step + 1/2⌋ : ℚ) * step := by
  rw [roundToStep, qdiv_eq, jsRound_eq_floor, qmul_eq, Rat.divInt_eq_div]
  norm_num

theorem SCORE_WEIGHTS_D : SCORE_WEIGHTS.demarrer_passer_barrage = 1/5 := by
  norm_num [SCORE_WEIGHTS, Rat.divInt_eq_div]

theorem SCORE_WEIGHTS_A : SCORE_WEIGHTS.accrocher = 3/10 := by
  norm_num [SCORE_WEIGHTS, Rat.divInt_eq_div]

theorem SCORE_WEIGHTS_G : SCORE_WEIGHTS.gerer_objections = 1/4 := by
  norm_num [SCORE_WEIGHTS, Rat.divInt_eq_div]

theorem SCORE_WEIGHTS_O : SCORE_WEIGHTS.obtenir_rendez_vous = 1/4 := by
  norm_num [SCORE_WEIGHTS, Rat.divInt_eq_div]

theorem floor_eval (r : ℚ) (k : ℤ) (h1 : (k : ℚ) ≤ r) (h2 : r < k + 1) : ⌊r⌋ = k :=
  Int.floor_eq_iff.mpr ⟨h1, by exact_mod_cast h2⟩

theorem clamp0_100_nonneg (v : JSVal) : 0 ≤ clamp0_100 v := by
  cases v <;> simp [clamp0_100]

theorem clamp0_100_le (v : JSVal) : clamp0_100 v ≤ 100 := by
  cases v <;> norm_num [clamp0_100]

theorem getScoreFromEtapes_nonneg (etapes : List MethodoEtape) (c : DagoCode) :
    0 ≤ getScoreFromEtapes etapes c := by
  unfold getScoreFromEtapes
  cases etapes.find? (fun e => e.code == some c) with
  | some e => exact clamp0_100_nonneg _
  | none =>
    cases etapes.find? (fun e => titleNumMatch (digitFor c) e.titre) with
    | some e => exact clamp0_100_nonneg _
    | none => exact clamp0_100_nonneg _

theorem getScoreFromEtapes_le (etapes : List MethodoEtape) (c : DagoCode) :
    getScoreFromEtapes etapes c ≤ 100 := by
  unfold getScoreFromEtapes
  cases etapes.find? (fun e => e.code == some c) with
  | some e => exact clamp0_100_le _
  | none =>
    cases etapes.find? (fun e => titleNumMatch (digitFor c) e.titre) with
    | some e => exact clamp0_100_le _
    | none => exact clamp0_100_le _

theorem round2_mono {x y : ℚ} (h : x ≤ y) : round2 x ≤ round2 y := by
  rw [round2_eq, round2_eq]
  have hf : ⌊x * 100 + 1/2⌋ ≤ ⌊y * 100 + 1/2⌋ := Int.floor_le_floor (by linarith)
  have hq : ((⌊x * 100 + 1/2⌋ : ℤ) : ℚ) ≤ ((⌊y * 100 + 1/2⌋ : ℤ) : ℚ) := by exact_mod_cast hf
  linarith

theorem round2_nonneg {x : ℚ} (h : 0 ≤ x) : 0 ≤ round2 x := by
  rw [round2_eq]
  have h0 : (0 : ℤ) ≤ ⌊x * 100 + 1/2⌋ := Int.le_floor.mpr (by push_cast; linarith)
  have hq : ((0 : ℤ) : ℚ) ≤ ((⌊x * 100 + 1/2⌋ : ℤ) : ℚ) := by exact_mod_cast h0
  push_cast at hq
  linarith

theorem round2_of_int (k : ℤ) : round2 ((k : ℚ)) = k := by
  rw [round2_eq]
  have hf : ⌊(k : ℚ) * 100 + 1/2⌋ = 100 * k := by
    apply floor_eval
    · push_cast; linarith
    · push_cast; linarith
  rw [hf]
  push_cast
  ring

theorem roundToStep5_nonneg {x : ℚ} (h : 0 ≤ x) : 0 ≤ roundToStep x 5 := by
  rw [roundToStep_eq]
  have h0 : (0 : ℤ) ≤ ⌊x / 5 + 1/2⌋ := Int.le_floor.mpr (by push_cast; linarith)
  have hq : ((0 : ℤ) : ℚ) ≤ ((⌊x / 5 + 1/2⌋ : ℤ) : ℚ) := by exact_mod_cast h0
  push_cast at hq
  linarith

theorem roundToStep5_le_100 {x : ℚ} (h : x ≤ 100) : roundToStep x 5 ≤ 100 := by
  rw [roundToStep_eq]
  have h20 : ⌊x / 5 + 1/2⌋ ≤ 20 := by
    have : ⌊x / 5 + 1/2⌋ ≤ ⌊(100 : ℚ) / 5 + 1/2⌋ := Int.floor_le_floor (by linarith)
    have h41 : ⌊(100 : ℚ) / 5 + 1/2⌋ = 20 := by
      apply floor_eval <;> norm_num
    rw [h41] at this
    exact this
  have hq : ((⌊x / 5 + 1/2⌋ : ℤ) : ℚ) ≤ ((20 : ℤ) : ℚ) := by exact_mod_cast h20
  push_cast at hq
  linarith

theorem etapesOf_isEmpty_false {n : ScoringPayload} (h : etapesOf n ≠ []) :
    (etapesOf n).isEmpty = false := by
  cases hE : etapesOf n with
  | nil => exact absurd hE h
  | cons a l => rfl

theorem injectScoreGlobal_of_empty (n : ScoringPayload) (r : ℚ) (h : etapesOf n = []) :
    injectScoreGlobal n r = n := by
  unfold injectScoreGlobal
  rw [h]
  rfl

theorem injectScoreGlobal_of_ne (n : ScoringPayload) (r : ℚ) (h : etapesOf n ≠ []) :
    injectScoreGlobal n r =
      { n with
        methodo := n.methodo.map (fun m => { m with etapes := some ((etapesOf n).map injectEtape) })
        score_global := some (scoreGlobalBlock (etapesOf n) r) } := by
  unfold injectScoreGlobal
  rw [etapesOf_isEmpty_false h]
  rfl

theorem injectScoreGlobal_synthese (n : ScoringPayload) (r : ℚ) :
    (injectScoreGlobal n r).synthese = n.synthese := by
  unfold injectScoreGlobal
  cases (etapesOf n).isEmpty <;> rfl

theorem injectScoreGlobal_discours (n : ScoringPayload) (r : ℚ) :
    (injectScoreGlobal n r).discours = n.discours := by
  unfold injectScoreGlobal
  cases (etapesOf n).isEmpty <;> rfl

theorem injectScoreGlobal_transcription (n : ScoringPayload) (r : ℚ) :
    (injectScoreGlobal n r).transcription = n.transcription := by
  unfold injectScoreGlobal
  cases (etapesOf n).isEmpty <;> rfl

theorem injectScoreGlobal_methodo_isSome (n : ScoringPayload) (r : ℚ) :
    (injectScoreGlobal n r).methodo.isSome = n.methodo.isSome := by
  unfold injectScoreGlobal
  cases (etapesOf n).isEmpty
  · cases n.methodo <;> rfl
  · rfl

theorem scoreGlobalValeur_of_ne (n : ScoringPayload) (h : etapesOf n ≠ []) :
    scoreGlobalValeur (injectScoreGlobal n 5) = some (Json.num (globalOf (etapesOf n) 5)) := by
  rw [scoreGlobalValeur, injectScoreGlobal_of_ne n 5 h]
  rfl

theorem globalOf_eq_formula (etapes : List MethodoEtape) :
    globalOf etapes 5 = compositeFormula etapes := by
  unfold globalOf rawGlobalOf detailCalculOf compositeFormula
  simp only [List.foldl_cons, List.foldl_nil, qadd_eq, qmul_eq,
    SCORE_WEIGHTS_D, SCORE_WEIGHTS_A, SCORE_WEIGHTS_G, SCORE_WEIGHTS_O]
  ring_nf

theorem compositeFormula_nonneg (etapes : List MethodoEtape) :
    0 ≤ compositeFormula etapes := by
  unfold compositeFormula
  apply roundToStep5_nonneg
  have hD := round2_nonneg (x := getScoreFromEtapes etapes DagoCode.D * (1/5))
    (by nlinarith [getScoreFromEtapes_nonneg etapes DagoCode.D])
  have hA := round2_nonneg (x := getScoreFromEtapes etapes DagoCode.A * (3/10))
    (by nlinarith [getScoreFromEtapes_nonneg etapes DagoCode.A])
  have hG := round2_nonneg (x := getScoreFromEtapes etapes DagoCode.G * (1/4))
    (by nlinarith [getScoreFromEtapes_nonneg etapes DagoCode.G])
  have hO := round2_nonneg (x := getScoreFromEtapes etapes DagoCode.O * (1/4))
    (by nlinarith [getScoreFromEtapes_nonneg etapes DagoCode.O])
  linarith

theorem compositeFormula_le_100 (etapes : List MethodoEtape) :
    compositeFormula etapes ≤ 100 := by
  unfold compositeFormula
  apply roundToStep5_le_100
  have h20 : round2 (getScoreFromEtapes etapes DagoCode.D * (1/5)) ≤ 20 := by
    have := round2_mono (x := getScoreFromEtapes etapes DagoCode.D * (1/5)) (y := ((20 : ℤ) : ℚ))
      (by push_cast; nlinarith [getScoreFromEtapes_le etapes DagoCode.D])
    rw [round2_of_int] at this
    exact_mod_cast this
  have h30 : round2 (getScoreFromEtapes etapes DagoCode.A * (3/10)) ≤ 30 := by
    have := round2_mono (x := getScoreFromEtapes etapes DagoCode.A * (3/10)) (y := ((30 : ℤ) : ℚ))
      (by push_cast; nlinarith [getScoreFromEtapes_le etapes DagoCode.A])
    rw [round2_of_int] at this
    exact_mod_cast this
  have h25G : round2 (getScoreFromEtapes etapes DagoCode.G * (1/4)) ≤ 25 := by
    have := round2_mono (x := getScoreFromEtapes etapes DagoCode.G * (1/4)) (y := ((25 : ℤ) : ℚ))
      (by push_cast; nlinarith [getScoreFromEtapes_le etapes DagoCode.G])
    rw [round2_of_int] at this
    exact_mod_cast this
  have h25O : round2 (getScoreFromEtapes etapes DagoCode.O * (1/4)) ≤ 25 := by
    have := round2_mono (x := getScoreFromEtapes etapes DagoCode.O * (1/4)) (y := ((25 : ℤ) : ℚ))
      (by push_cast; nlinarith [getScoreFromEtapes_le etapes DagoCode.O])
    rw [round2_of_int] at this
    exact_mod_cast this
  linarith

theorem callOpenAI_success {α : Type} (tab : String) (p : α) :
    callOpenAI tab (EvalOutcome.success p) = { result := some p, error := none } := rfl

theorem callOpenAI_failed_result {α : Type} (tab : String) (o : EvalOutcome α)
    (h : o.failed = true) : (callOpenAI tab o).result = none := by
  cases o with
  | success p => simp [EvalOutcome.failed] at h
  | netThrow t => cases t <;> rfl
  | promptMissing => rfl
  | httpError m => rfl
  | badJson => rfl

theorem callOpenAI_failed_error {α : Type} (tab : String) (o : EvalOutcome α)
    (h : o.failed = true) :
    ∃ s, (callOpenAI tab o).error = some s ∧
      (s = "" → o = EvalOutcome.netThrow (Thrown.errObj "")) := by
  cases o with
  | success p => simp [EvalOutcome.failed] at h
  | promptMissing =>
    refine ⟨"Prompt non trouvé pour " ++ tab, rfl, fun hc => absurd (congrArg String.length hc) ?_⟩
    rw [String.length_append]
    have h23 : "Prompt non trouvé pour ".length = 23 := rfl
    have h0 : "".length = 0 := rfl
    omega
  | netThrow t =>
    cases t with
    | errObj m => exact ⟨m, rfl, fun hc => by rw [hc]⟩
    | nonErrorValue => exact ⟨"Erreur inconnue", rfl, fun hc => by simp at hc⟩
  | httpError m =>
    refine ⟨jsOrDefault m "Erreur API OpenAI", rfl, fun hc => ?_⟩
    exfalso
    cases m with
    | none => simp [jsOrDefault] at hc
    | some s =>
      rw [jsOrDefault] at hc
      by_cases hs : s == ""
      · rw [if_pos hs] at hc; simp at hc
      · rw [if_neg hs] at hc
        rw [hc] at hs
        simp at hs
  | badJson => exact ⟨"Format de réponse invalide", rfl, fun hc => by simp at hc⟩

theorem errEntry_eq_entryIfErrored (tab : String) (b : Bool) (err : Option String)
    (h : b = true → err = none) : errEntry tab b err = entryIfErrored tab err := by
  cases b with
  | false => cases err <;> rfl
  | true => rw [h rfl]; rfl

theorem callOpenAI_error_or_result {α : Type} (tab : String) (o : EvalOutcome α) :
    (callOpenAI tab o).error = none ∨ (callOpenAI tab o).result = none := by
  cases o with
  | success p => exact Or.inl rfl
  | netThrow t => cases t <;> exact Or.inr rfl
  | promptMissing => exact Or.inr rfl
  | httpError m => exact Or.inr rfl
  | badJson => exact Or.inr rfl

theorem optJsonTruthy_error_none (tab : String) (o : EvalOutcome Json)
    (h : optJsonTruthy (callOpenAI tab o).result = true) :
    (callOpenAI tab o).error = none := by
  rcases callOpenAI_error_or_result tab o with he | hr
  · exact he
  · rw [hr] at h
    simp [optJsonTruthy] at h

theorem isSome_error_none (tab : String) (o : EvalOutcome MethodoPayload)
    (h : (callOpenAI tab o).result.isSome = true) :
    (callOpenAI tab o).error = none := by
  rcases callOpenAI_error_or_result tab o with he | hr
  · exact he
  · rw [hr] at h
    simp at h

theorem buildErrors_eq (o : RunOutcome) :
    runErrors o =
      entryIfErrored "synthese" (runCalls o).synthese.error ++
      entryIfErrored "methodo" (runCalls o).methodo.error ++
      entryIfErrored "discours" (runCalls o).discours.error ++
      entryIfErrored "transcription" (runCalls o).transcription.error := by
  show buildErrors (runCalls o) = _
  unfold buildErrors
  simp only [runCalls]
  rw [errEntry_eq_entryIfErrored _ _ _ (optJsonTruthy_error_none "synthese" o.synthese),
    errEntry_eq_entryIfErrored _ _ _ (isSome_error_none "methodo" o.methodo),
    errEntry_eq_entryIfErrored _ _ _ (optJsonTruthy_error_none "discours" o.discours),
    errEntry_eq_entryIfErrored _ _ _ (optJsonTruthy_error_none "transcription" o.transcription)]

theorem runPayload_synthese (o : RunOutcome) :
    (runPayload o).synthese = keepTruthy (callOpenAI "synthese" o.synthese).result := by
  unfold runPayload
  rw [injectScoreGlobal_synthese]
  rfl

theorem runPayload_discours (o : RunOutcome) :
    (runPayload o).discours = keepTruthy (callOpenAI "discours" o.discours).result := by
  unfold runPayload
  rw [injectScoreGlobal_discours]
  rfl

theorem runPayload_transcription (o : RunOutcome) :
    (runPayload o).transcription = keepTruthy (callOpenAI "transcription" o.transcription).result := by
  unfold runPayload
  rw [injectScoreGlobal_transcription]
  rfl

theorem runPayload_methodo_isSome (o : RunOutcome) :
    (runPayload o).methodo.isSome = (callOpenAI "methodo" o.methodo).result.isSome := by
  unfold runPayload
  rw [injectScoreGlobal_methodo_isSome]
  rfl

theorem keepTruthy_isSome_iff (r : Option Json) :
    (keepTruthy r).isSome = true ↔ ∃ j, r = some j ∧ j.truthy = true := by
  cases r with
  | none => simp [keepTruthy]
  | some j =>
    cases hj : j.truthy <;> simp [keepTruthy, hj]

theorem find?_append_first {α : Type} (p : α → Bool) (pre : List α) (e : α) (post : List α)
    (hpre : ∀ x ∈ pre, p x = false) (he : p e = true) :
    (pre ++ e :: post).find? p = some e := by
  induction pre with
  | nil => exact List.find?_cons_of_pos post he
  | cons a l ih =>
    rw [List.cons_append,
      List.find?_cons_of_neg _ (by rw [hpre a (List.mem_cons_self a l)]; simp)]
    exact ih (fun x hx => hpre x (List.mem_cons_of_mem a hx))

theorem runPayload_allFail (o : RunOutcome)
    (h1 : o.synthese.failed = true) (h2 : o.methodo.failed = true)
    (h3 : o.discours.failed = true) (h4 : o.transcription.failed = true) :
    runPayload o = ⟨none, none, none, none, none⟩ := by
  unfold runPayload
  have hb : buildPayload (runCalls o) = ⟨none, none, none, none, none⟩ := by
    unfold buildPayload runCalls
    rw [callOpenAI_failed_result "synthese" o.synthese h1,
      callOpenAI_failed_result "methodo" o.methodo h2,
      callOpenAI_failed_result "discours" o.discours h3,
      callOpenAI_failed_result "transcription" o.transcription h4]
    rfl
  rw [hb]
  exact injectScoreGlobal_of_empty _ _ rfl

/-- Claim C5: the performance-level classification maps every score `s` to
`faible` when `s ≤ 40`, `moyen` when `40 < s ≤ 65`, `bon` when `65 < s ≤ 85`
and `excellent` when `85 < s`; boundary values belong to the lower band. -/
theorem c5_niveau_bands (s : ℚ) :
    (s ≤ 40 → niveauPerformance s = "faible") ∧
    (40 < s → s ≤ 65 → niveauPerformance s = "moyen") ∧
    (65 < s → s ≤ 85 → niveauPerformance s = "bon") ∧
    (85 < s → niveauPerformance s = "excellent") := by
  unfold niveauPerformance
  refine ⟨fun h => if_pos h, fun h1 h2 => ?_, fun h1 h2 => ?_, fun h1 => ?_⟩
  · rw [if_neg (by linarith), if_pos h2]
  · rw [if_neg (by linarith), if_neg (by linarith), if_pos h2]
  · rw [if_neg (by linarith), if_neg (by linarith), if_neg (by linarith)]

theorem c5_niveau_bands_witness :
    ((65 : ℚ) < 85 ∧ (85 : ℚ) ≤ 85) ∧ niveauPerformance 85 = "bon" :=
  ⟨⟨by norm_num, le_refl 85⟩, (c5_niveau_bands 85).2.2.1 (by norm_num) (le_refl 85)⟩

/-- Claim C9: the clamp maps NaN and every non-numeric value to 0 and every
numeric value into `[0,100]`; consequently every resolved step score — hence
every quantity entering the composite — is a finite rational in `[0,100]`,
and NaN can never reach the composite. -/
theorem c9_clamp_safety :
    clamp0_100 JSVal.nan = 0 ∧ clamp0_100 JSVal.nonNumber = 0 ∧
    (∀ v : JSVal, 0 ≤ clamp0_100 v ∧ clamp0_100 v ≤ 100) ∧
    (∀ (etapes : List MethodoEtape) (c : DagoCode),
      0 ≤ getScoreFromEtapes etapes c ∧ getScoreFromEtapes etapes c ≤ 100) :=
  ⟨rfl, rfl, fun v => ⟨clamp0_100_nonneg v, clamp0_100_le v⟩,
   fun etapes c => ⟨getScoreFromEtapes_nonneg etapes c, getScoreFromEtapes_le etapes c⟩⟩

/-- Claim C10: when resolving the score for a code, a step carrying the
explicit code always wins over steps matching only by numeric title (first
such step in list order), and when no explicit code is present anywhere the
first title-matching step wins; later duplicates never influence the
result. -/
theorem c10_resolution_precedence :
    (∀ (pre : List MethodoEtape) (e : MethodoEtape) (post : List MethodoEtape) (c : DagoCode),
      (∀ x ∈ pre, x.code ≠ some c) → e.code = some c →
      getScoreFromEtapes (pre ++ e :: post) c = clamp0_100 e.score) ∧
    (∀ (pre : List MethodoEtape) (e : MethodoEtape) (post : List MethodoEtape) (c : DagoCode),
      (∀ x ∈ pre ++ e :: post, x.code ≠ some c) →
      (∀ x ∈ pre, titleNumMatch (digitFor c) x.titre = false) →
      titleNumMatch (digitFor c) e.titre = true →
      getScoreFromEtapes (pre ++ e :: post) c = clamp0_100 e.score) := by
  constructor
  · intro pre e post c hpre he
    unfold getScoreFromEtapes
    rw [find?_append_first _ pre e post (fun x hx => by simp [hpre x hx]) (by simp [he])]
  · intro pre e post c hcode hpre he
    unfold getScoreFromEtapes
    rw [List.find?_eq_none.mpr (fun x hx => by simp [hcode x hx]),
      find?_append_first _ pre e post hpre he]

theorem c10_resolution_precedence_witness :
    getScoreFromEtapes (c10Pre ++ c10E :: c10Post) DagoCode.A = clamp0_100 c10E.score ∧
    clamp0_100 c10E.score = 77 :=
  ⟨c10_resolution_precedence.1 c10Pre c10E c10Post DagoCode.A (by decide) rfl, by decide⟩

/-- Claim C1 (amended): for every payload with a non-empty step list, the
injected `valeur` equals
`roundToStep(round2(0.20·sD) + round2(0.30·sA) + round2(0.25·sG) + round2(0.25·sO), 5)`
— each weighted contribution is rounded to two decimals before summing, which
coincides with the claimed `roundToStep(0.20·sD + ..., 5)` whenever the
scores are integers but not in general — and the value lies in `[0,100]`. -/
theorem c1_composite_value (n : ScoringPayload) (h : etapesOf n ≠ []) :
    scoreGlobalValeur (injectScoreGlobal n 5) = some (Json.num (compositeFormula (etapesOf n))) ∧
    0 ≤ compositeFormula (etapesOf n) ∧ compositeFormula (etapesOf n) ≤ 100 := by
  refine ⟨?_, compositeFormula_nonneg _, compositeFormula_le_100 _⟩
  rw [scoreGlobalValeur_of_ne n h, globalOf_eq_formula]

theorem c1_composite_value_witness :
    etapesOf exPayload ≠ [] ∧
    (scoreGlobalValeur (injectScoreGlobal exPayload 5) =
        some (Json.num (compositeFormula (etapesOf exPayload))) ∧
     0 ≤ compositeFormula (etapesOf exPayload) ∧ compositeFormula (etapesOf exPayload) ≤ 100) :=
  ⟨by decide, c1_composite_value exPayload (by decide)⟩

/-- Claim C1 is false as stated: with the single step D scored 12.48 the
code injects `valeur = 5` (round2 lifts the contribution 2.496 to 2.5, and
2.5 rounds up to 5), while the claimed formula
`roundToStep(0.20·12.48 + 0 + 0 + 0, 5) = roundToStep(2.496, 5)` is 0. -/
theorem c1_counterexample :
    scoreGlobalValeur (injectScoreGlobal c1Payload 5) = some (Json.num 5) ∧
    roundToStep ((312/25 : ℚ) * (1/5) + 0 * (3/10) + 0 * (1/4) + 0 * (1/4)) 5 = 0 ∧
    (5 : ℚ) ≠ 0 := by
  refine ⟨by rfl, ?_, by norm_num⟩
  rw [roundToStep_eq]
  have hsum : ((312/25 : ℚ) * (1/5) + 0 * (3/10) + 0 * (1/4) + 0 * (1/4)) / 5 + 1/2
      = 1249/1250 := by norm_num
  rw [hsum, floor_eval (1249/1250 : ℚ) 0 (by norm_num) (by norm_num)]
  norm_num

/-- Claim C2 (amended): the composite block is omitted exactly when the
methodology step list is missing or empty (in which case the whole payload is
returned unchanged); when steps exist but none is resolvable the code still
injects a block (with value 0 — see the counterexample), and the error list
never depends on the contents of a successfully parsed methodology payload,
so no error is added for unresolvable steps. -/
theorem c2_omission_amended (n : ScoringPayload) (o : RunOutcome) (p p2 : MethodoPayload) :
    (etapesOf n = [] → injectScoreGlobal n 5 = n) ∧
    (etapesOf n ≠ [] → (injectScoreGlobal n 5).score_global.isSome = true) ∧
    runErrors { o with methodo := EvalOutcome.success p } =
      runErrors { o with methodo := EvalOutcome.success p2 } := by
  refine ⟨injectScoreGlobal_of_empty n 5, fun h => ?_, ?_⟩
  · rw [injectScoreGlobal_of_ne n 5 h]
    rfl
  · rw [buildErrors_eq, buildErrors_eq]
    rfl

theorem c2_omission_amended_witness :
    injectScoreGlobal ⟨none, none, none, none, none⟩ 5 = ⟨none, none, none, none, none⟩ ∧
    (injectScoreGlobal c2Payload 5).score_global.isSome = true :=
  ⟨(c2_omission_amended ⟨none, none, none, none, none⟩ cMixedOutcome
      { etapes := none } { etapes := none }).1 rfl,
   (c2_omission_amended c2Payload cMixedOutcome
      { etapes := none } { etapes := none }).2.1 (by decide)⟩

/-- Claim C2 is false as stated: a payload whose (non-empty) step list has no
resolvable step still receives a composite block, with value 0, instead of
the block being genuinely absent. -/
theorem c2_counterexample :
    c2Etapes.all (fun e => (inferDago e).isNone) = true ∧
    (injectScoreGlobal c2Payload 5).score_global.isSome = true ∧
    scoreGlobalValeur (injectScoreGlobal c2Payload 5) = some (Json.num 0) :=
  ⟨by decide, by rfl, by rfl⟩

/-- Claim C3 (amended): when the methodology payload has steps, the computed
composite block is stored under the top-level `score_global` key of the
aggregation payload — the synthesis payload is neither modified nor created —
together with the per-step contributions (`detail_calcul`), the weight table
snapshot (`pondérations`) and the exclusion list (`regles_exclusion`) naming
the rubric kinds that do not feed the numeric score. -/
theorem c3_top_level_block (n : ScoringPayload) (h : etapesOf n ≠ []) :
    (injectScoreGlobal n 5).synthese = n.synthese ∧
    (injectScoreGlobal n 5).score_global = some (scoreGlobalBlock (etapesOf n) 5) ∧
    "detail_calcul" ∈ (scoreGlobalBlock (etapesOf n) 5).keys ∧
    "pondérations" ∈ (scoreGlobalBlock (etapesOf n) 5).keys ∧
    (scoreGlobalBlock (etapesOf n) 5).get? "regles_exclusion" =
      some (Json.arr [Json.str "SyntheseGlobale", Json.str "AvisPersonaIA",
        Json.str "AnalyseDiscours", Json.str "Transcription"]) := by
  refine ⟨injectScoreGlobal_synthese n 5, ?_, ?_, ?_, ?_⟩
  · rw [injectScoreGlobal_of_ne n 5 h]
  · show "detail_calcul" ∈ ["valeur", "unite", "methode_calcul", "pondérations",
      "detail_calcul", "score_process", "score_execution_discours", "interpretation",
      "niveau_performance", "seuils", "regles_exclusion"]
    decide
  · show "pondérations" ∈ ["valeur", "unite", "methode_calcul", "pondérations",
      "detail_calcul", "score_process", "score_execution_discours", "interpretation",
      "niveau_performance", "seuils", "regles_exclusion"]
    decide
  · rfl

theorem c3_top_level_block_witness :
    etapesOf exPayload ≠ [] ∧
    ((injectScoreGlobal exPayload 5).synthese = exPayload.synthese ∧
     (injectScoreGlobal exPayload 5).score_global = some (scoreGlobalBlock (etapesOf exPayload) 5)) :=
  ⟨by decide, ⟨(c3_top_level_block exPayload (by decide)).1,
    (c3_top_level_block exPayload (by decide)).2.1⟩⟩

/-- Claim C3 is false as stated: in a run where the synthesis evaluator
failed but methodology succeeded, no synthesis payload is created and nothing
is merged into one — the composite block sits at the top level while the
synthesis entry stays absent. -/
theorem c3_counterexample :
    (runPayload c3Outcome).synthese = none ∧
    (runPayload c3Outcome).score_global.isSome = true :=
  ⟨by rfl, by rfl⟩

theorem roundToStep5_mul (x : ℚ) : ∃ k : ℤ, roundToStep x 5 = (k : ℚ) * 5 :=
  ⟨⌊x / 5 + 1/2⌋, roundToStep_eq x 5⟩

theorem niveauPerformance_mem (s : ℚ) :
    niveauPerformance s ∈ (["faible", "moyen", "bon", "excellent"] : List String) := by
  unfold niveauPerformance
  split_ifs <;> simp

/-- Claim C4 (amended): the injected composite block has exactly the keys
`valeur`, `unite`, `methode_calcul`, `pondérations` (spelled with the
accent), `detail_calcul`, `score_process`, `score_execution_discours`,
`interpretation`, `niveau_performance`, `seuils`, `regles_exclusion`, in this
order; the weight table is keyed by the long step names with values
0.20/0.30/0.25/0.25; `methode_calcul` is the fixed string; `valeur` is a
multiple of 5; each `detail_calcul` entry has the keys
`etape`/`code`/`score_etape`/`poids`/`contribution`; `niveau_performance` is
one of the four levels, and `seuils` carries the four fixed range strings. -/
theorem c4_wire_shape (n : ScoringPayload) (h : etapesOf n ≠ []) :
    (injectScoreGlobal n 5).score_global = some (scoreGlobalBlock (etapesOf n) 5) ∧
    (scoreGlobalBlock (etapesOf n) 5).keys =
      ["valeur", "unite", "methode_calcul", "pondérations", "detail_calcul",
       "score_process", "score_execution_discours", "interpretation",
       "niveau_performance", "seuils", "regles_exclusion"] ∧
    (scoreGlobalBlock (etapesOf n) 5).get? "methode_calcul" =
      some (Json.str "moyenne_ponderee_etapes_methodologiques") ∧
    (scoreGlobalBlock (etapesOf n) 5).get? "pondérations" =
      some (Json.obj [("demarrer_passer_barrage", Json.num (1/5)),
        ("accrocher", Json.num (3/10)), ("gerer_objections", Json.num (1/4)),
        ("obtenir_rendez_vous", Json.num (1/4))]) ∧
    (∃ k : ℤ, globalOf (etapesOf n) 5 = (k : ℚ) * 5) ∧
    niveauPerformance (globalOf (etapesOf n) 5) ∈
      (["faible", "moyen", "bon", "excellent"] : List String) ∧
    (scoreGlobalBlock (etapesOf n) 5).get? "seuils" =
      some (Json.obj [("faible", Json.str "0-40"), ("moyen", Json.str "41-65"),
        ("bon", Json.str "66-85"), ("excellent", Json.str "86-100")]) ∧
    (∀ j ∈ (detailCalculOf (etapesOf n)).map detailJson,
      j.keys = ["etape", "code", "score_etape", "poids", "contribution"]) := by
  refine ⟨?_, rfl, rfl, ?_, roundToStep5_mul _, niveauPerformance_mem _, rfl, ?_⟩
  · rw [injectScoreGlobal_of_ne n 5 h]
  · show some (Json.obj [("demarrer_passer_barrage", Json.num SCORE_WEIGHTS.demarrer_passer_barrage),
      ("accrocher", Json.num SCORE_WEIGHTS.accrocher),
      ("gerer_objections", Json.num SCORE_WEIGHTS.gerer_objections),
      ("obtenir_rendez_vous", Json.num SCORE_WEIGHTS.obtenir_rendez_vous)]) = _
    rw [SCORE_WEIGHTS_D, SCORE_WEIGHTS_A, SCORE_WEIGHTS_G, SCORE_WEIGHTS_O]
  · intro j hj
    obtain ⟨d, _, rfl⟩ := List.mem_map.mp hj
    rfl

theorem c4_wire_shape_witness :
    etapesOf exPayload ≠ [] ∧
    ((scoreGlobalBlock (etapesOf exPayload) 5).keys =
      ["valeur", "unite", "methode_calcul", "pondérations", "detail_calcul",
       "score_process", "score_execution_discours", "interpretation",
       "niveau_performance", "seuils", "regles_exclusion"] ∧
     (∃ k : ℤ, globalOf (etapesOf exPayload) 5 = (k : ℚ) * 5)) :=
  ⟨by decide, ⟨(c4_wire_shape exPayload (by decide)).2.1,
    (c4_wire_shape exPayload (by decide)).2.2.2.2.1⟩⟩

/-- Claim C4 is false as stated: the block written for the running example
has five extra keys, spells the weight key `pondérations` (not
`ponderations`), and keys the weight table by the long step names rather
than by D/A/G/O. -/
theorem c4_counterexample :
    scoreGlobalKeys (injectScoreGlobal exPayload 5) =
      ["valeur", "unite", "methode_calcul", "pondérations", "detail_calcul",
       "score_process", "score_execution_discours", "interpretation",
       "niveau_performance", "seuils", "regles_exclusion"] ∧
    scoreGlobalKeys (injectScoreGlobal exPayload 5) ≠ specWireKeys ∧
    "ponderations" ∉ scoreGlobalKeys (injectScoreGlobal exPayload 5) ∧
    ((injectScoreGlobal exPayload 5).score_global.bind (fun j => j.get? "pondérations")).map Json.keys =
      some ["demarrer_passer_barrage", "accrocher", "gerer_objections", "obtenir_rendez_vous"] :=
  ⟨by rfl, by decide, by decide, by rfl⟩

theorem storeWrite_allFail (o : RunOutcome)
    (h1 : o.synthese.failed = true) (h2 : o.methodo.failed = true)
    (h3 : o.discours.failed = true) (h4 : o.transcription.failed = true) :
    storeWrite o = false := by
  unfold storeWrite
  rw [runPayload_allFail o h1 h2 h3 h4]
  rfl

theorem entryIfErrored_len (tab s : String) :
    (entryIfErrored tab (some s)).length + (if isEmptyErr (some s) then 1 else 0) = 1 := by
  unfold entryIfErrored isEmptyErr
  cases hs : s == "" <;> simp [hs]

/-- Claim C6 (amended): the store write happens only when at least one of
the four evaluations succeeded; when all four fail, no write occurs, the
result carries no composite block, and the error list has one entry per
failure whose error message is non-empty — four entries exactly when no
failure carried an empty message. -/
theorem c6_store_write (o : RunOutcome) :
    (storeWrite o = true →
      o.synthese.failed = false ∨ o.methodo.failed = false ∨
      o.discours.failed = false ∨ o.transcription.failed = false) ∧
    (o.synthese.failed = true → o.methodo.failed = true → o.discours.failed = true →
      o.transcription.failed = true →
      storeWrite o = false ∧ (runPayload o).score_global = none ∧
      (runErrors o).length + emptyErrCount o = 4) := by
  constructor
  · intro hw
    by_contra hall
    push_neg at hall
    obtain ⟨n1, n2, n3, n4⟩ := hall
    have b1 : o.synthese.failed = true := by revert n1; cases o.synthese.failed <;> simp
    have b2 : o.methodo.failed = true := by revert n2; cases o.methodo.failed <;> simp
    have b3 : o.discours.failed = true := by revert n3; cases o.discours.failed <;> simp
    have b4 : o.transcription.failed = true := by revert n4; cases o.transcription.failed <;> simp
    rw [storeWrite_allFail o b1 b2 b3 b4] at hw
    exact Bool.false_ne_true hw
  · intro h1 h2 h3 h4
    refine ⟨storeWrite_allFail o h1 h2 h3 h4, ?_, ?_⟩
    · rw [runPayload_allFail o h1 h2 h3 h4]
    · obtain ⟨s1, e1, _⟩ := callOpenAI_failed_error "synthese" o.synthese h1
      obtain ⟨s2, e2, _⟩ := callOpenAI_failed_error "methodo" o.methodo h2
      obtain ⟨s3, e3, _⟩ := callOpenAI_failed_error "discours" o.discours h3
      obtain ⟨s4, e4, _⟩ := callOpenAI_failed_error "transcription" o.transcription h4
      rw [buildErrors_eq]
      unfold emptyErrCount
      simp only [runCalls]
      simp only [e1, e2, e3, e4]
      simp only [List.length_append]
      have k1 := entryIfErrored_len "synthese" s1
      have k2 := entryIfErrored_len "methodo" s2
      have k3 := entryIfErrored_len "discours" s3
      have k4 := entryIfErrored_len "transcription" s4
      omega

theorem c6_store_write_witness :
    storeWrite c6AllFail = false ∧ (runPayload c6AllFail).score_global = none ∧
    (runErrors c6AllFail).length + emptyErrCount c6AllFail = 4 :=
  (c6_store_write c6AllFail).2 rfl rfl rfl rfl

/-- Claim C6 is false as stated: in a run where all four evaluations fail but
one of them threw an `Error` with an empty message, no store write occurs but
the caller receives only three error entries, not four. -/
theorem c6_counterexample :
    c6Outcome.synthese.failed = true ∧ c6Outcome.methodo.failed = true ∧
    c6Outcome.discours.failed = true ∧ c6Outcome.transcription.failed = true ∧
    storeWrite c6Outcome = false ∧ (runErrors c6Outcome).length = 3 :=
  ⟨rfl, rfl, rfl, rfl, by rfl, by rfl⟩

theorem json_success_iff (tab : String) (oc : EvalOutcome Json) :
    ((keepTruthy (callOpenAI tab oc).result).isSome = true ↔
      ∃ j, oc = EvalOutcome.success j ∧ j.truthy = true) := by
  rw [keepTruthy_isSome_iff]
  cases oc with
  | success p => simp [callOpenAI, callBody]
  | netThrow t => cases t <;> simp [callOpenAI, callBody]
  | promptMissing => simp [callOpenAI, callBody]
  | httpError m => simp [callOpenAI, callBody]
  | badJson => simp [callOpenAI, callBody]

theorem methodo_success_iff (tab : String) (oc : EvalOutcome MethodoPayload) :
    ((callOpenAI tab oc).result.isSome = true ↔ ∃ p, oc = EvalOutcome.success p) := by
  cases oc with
  | success p => simp [callOpenAI, callBody]
  | netThrow t => cases t <;> simp [callOpenAI, callBody]
  | promptMissing => simp [callOpenAI, callBody]
  | httpError m => simp [callOpenAI, callBody]
  | badJson => simp [callOpenAI, callBody]

/-- Claim C7 (amended): for every outcome of the four calls, the error list
is the concatenation, in the fixed tab order, of `"{tab}: {error}"` for
exactly those results carrying a non-empty error string — a present-but-empty
error string is skipped — independent of completion order (the model is a
pure function of the outcomes, as `Promise.all` preserves index order); and a
tab is present in the result mapping exactly when its call produced a truthy
payload (for the methodology tab, whose payload is an object, exactly when it
produced a payload). -/
theorem c7_errors_and_mapping (o : RunOutcome) :
    runErrors o =
      entryIfErrored "synthese" (runCalls o).synthese.error ++
      entryIfErrored "methodo" (runCalls o).methodo.error ++
      entryIfErrored "discours" (runCalls o).discours.error ++
      entryIfErrored "transcription" (runCalls o).transcription.error ∧
    ((runPayload o).synthese.isSome = true ↔
      ∃ j, o.synthese = EvalOutcome.success j ∧ j.truthy = true) ∧
    ((runPayload o).methodo.isSome = true ↔ ∃ p, o.methodo = EvalOutcome.success p) ∧
    ((runPayload o).discours.isSome = true ↔
      ∃ j, o.discours = EvalOutcome.success j ∧ j.truthy = true) ∧
    ((runPayload o).transcription.isSome = true ↔
      ∃ j, o.transcription = EvalOutcome.success j ∧ j.truthy = true) := by
  refine ⟨buildErrors_eq o, ?_, ?_, ?_, ?_⟩
  · rw [runPayload_synthese]
    exact json_success_iff "synthese" o.synthese
  · rw [runPayload_methodo_isSome]
    exact methodo_success_iff "methodo" o.methodo
  · rw [runPayload_discours]
    exact json_success_iff "discours" o.discours
  · rw [runPayload_transcription]
    exact json_success_iff "transcription" o.transcription

theorem c7_errors_and_mapping_witness :
    runErrors cMixedOutcome = ["methodo: Erreur API OpenAI", "transcription: reset"] ∧
    (runPayload cMixedOutcome).synthese.isSome = true :=
  ⟨by rw [(c7_errors_and_mapping cMixedOutcome).1]; rfl,
   (c7_errors_and_mapping cMixedOutcome).2.1.mpr
     ⟨Json.obj [("synthese", Json.str "s")], rfl, rfl⟩⟩

/-- Claim C7 is false as stated: when the discours evaluator successfully
returns the parsed payload `null` (a produced payload), the discours kind is
nevertheless absent from the result mapping, and no error entry is recorded
either. -/
theorem c7_counterexample :
    (callOpenAI "discours" c7Outcome.discours).result = some Json.nullv ∧
    (runPayload c7Outcome).discours = none ∧
    runErrors c7Outcome = [] :=
  ⟨rfl, by rfl, by rfl⟩

/-- Claim C8 (amended): for every failure mode the client returns a result
object with an absent payload and a present error string, and that string is
non-empty in every case except a thrown `Error` whose own message is the
empty string; every thrown value is converted by the catch handler into a
returned result object, so no exception escapes the client (sibling
evaluations, modelled independently per tab, are never affected). -/
theorem c8_client_failure {α : Type} (tab : String) (o : EvalOutcome α)
    (h : o.failed = true) :
    (callOpenAI tab o).result = none ∧
    (∃ s, (callOpenAI tab o).error = some s ∧
      (s = "" → o = EvalOutcome.netThrow (Thrown.errObj ""))) ∧
    (∀ t : Thrown, callBody tab o = Except.error t →
      callOpenAI tab o = { result := none, error := some (thrownMsg t) }) := by
  refine ⟨callOpenAI_failed_result tab o h, callOpenAI_failed_error tab o h, ?_⟩
  intro t ht
  unfold callOpenAI
  rw [ht]
  cases t <;> rfl

theorem c8_client_failure_witness :
    (EvalOutcome.badJson : EvalOutcome Json).failed = true ∧
    ((callOpenAI "discours" (EvalOutcome.badJson : EvalOutcome Json)).result = none ∧
     ∃ s, (callOpenAI "discours" (EvalOutcome.badJson : EvalOutcome Json)).error = some s ∧
       (s = "" → (EvalOutcome.badJson : EvalOutcome Json) =
         EvalOutcome.netThrow (Thrown.errObj ""))) :=
  ⟨rfl, ⟨(c8_client_failure "discours" (EvalOutcome.badJson : EvalOutcome Json) rfl).1,
    (c8_client_failure "discours" (EvalOutcome.badJson : EvalOutcome Json) rfl).2.1⟩⟩

/-- Claim C8 is false as stated: a network failure that throws an `Error`
whose message is the empty string yields a result object whose error string
is present but empty — not the claimed non-empty string. -/
theorem c8_counterexample :
    (callOpenAI "synthese" (EvalOutcome.netThrow (Thrown.errObj "") : EvalOutcome Json)).result = none ∧
    (callOpenAI "synthese" (EvalOutcome.netThrow (Thrown.errObj "") : EvalOutcome Json)).error = some "" ∧
    ("" : String).length = 0 :=
  ⟨rfl, rfl, rfl⟩
